import Mathlib

/-!
# zdkb_honyaku frontend: the API client and the route table

A shallow embedding of `frontend/src/services/api.js` (the axios wrapper with
its twelve exported methods) and of `frontend/src/main.js` (the vue-router
route table), followed by the properties established about them.

JavaScript values are embedded as data (`JSVal`).  The conversion a template
literal applies to a substituted value is `toStringOf`; it fails on the values
on which the language throws.
-/

namespace Zdkb

/-! ## JavaScript values -/

/-- What a conversion or a call throws. -/
inductive JSError where
  | TypeError
  | thrown (what : String)
  deriving DecidableEq, Repr

/-- A number value. A finite number is given by a decimal that identifies it:
`decimal negative s e` is `s * 10 ^ e` with its sign, where `s * 10 ^ e` is the
shortest decimal that reads back as the number (the digits that the language's
number-to-string conversion prints). `s = 0` is zero, of either sign. -/
inductive JSNumber where
  | nan
  | infinity (negative : Bool)
  | decimal (negative : Bool) (s : Nat) (e : Int)
  deriving DecidableEq, Repr

/-- The primitive values other than symbols; their conversion to a string
cannot fail. `undefined` is also the value of an argument the caller left
out. -/
inductive Prim where
  | undefined
  | null
  | bool (b : Bool)
  | num (x : JSNumber)
  | bigint (n : Int)
  | str (s : String)
  deriving DecidableEq, Repr

/-- JavaScript values: the primitives, symbols, arrays (their items), plain
objects (their own properties in insertion order, each holding data), and
`other` for any further object (a boxed primitive, a date, a function, an
object with conversion methods of its own), known by what converting it to a
string does. -/
inductive JSVal where
  | prim (p : Prim)
  | symbol (description : String)
  | arr (items : List JSVal)
  | obj (fields : List (String × JSVal))
  | other (conversion : Except JSError String)

instance : Coe Prim JSVal := ⟨JSVal.prim⟩

/-- The absent body or argument. -/
def JSVal.undefined : JSVal := JSVal.prim Prim.undefined

/-- A string value. -/
def JSVal.str (s : String) : JSVal := JSVal.prim (Prim.str s)

/-- Decimal digit character of `d < 10`. -/
def digitChar (d : Nat) : Char := Char.ofNat (48 + d)

/-- Decimal digits of `n`, most significant first; `fuel` bounds the number of
digits produced. -/
def decimalDigits : Nat → Nat → List Char
  | 0, _ => []
  | fuel + 1, n =>
    if n < 10 then [digitChar n]
    else decimalDigits fuel (n / 10) ++ [digitChar (n % 10)]

/-- The decimal digits of a natural number. -/
def natDigits (n : Nat) : List Char := decimalDigits (n + 1) n

/-- String form of a BigInt: its decimal digits, with `-` when negative. -/
def bigintToString (n : Int) : String :=
  match n with
  | Int.ofNat k => String.mk (natDigits k)
  | Int.negSucc k => String.mk ('-' :: natDigits (k + 1))

/-- Remove the trailing zeros of `s`, raising the exponent; `fuel` bounds the
number of zeros removed. -/
def stripTrailingZeros : Nat → Nat → Int → Nat × Int
  | 0, s, e => (s, e)
  | fuel + 1, s, e =>
    if s ≠ 0 ∧ s % 10 = 0 then stripTrailingZeros fuel (s / 10) (e + 1) else (s, e)

/-- The layout of `Number::toString` for the digits `digits` (there are `k`)
of a positive number with `10 ^ (n - 1) ≤ value < 10 ^ n`: plain digits with
zeros appended when `k ≤ n ≤ 21`, a decimal point inside the digits when
`0 < n < k`, `0.` and zeros before the digits when `-6 < n ≤ 0`, and
exponent form otherwise. -/
def formatDecimal (digits : List Char) (n : Int) : List Char :=
  if -6 < n ∧ n ≤ 21 then
    if (digits.length : Int) ≤ n then digits ++ List.replicate (n.toNat - digits.length) '0'
    else if 0 < n then digits.take n.toNat ++ '.' :: digits.drop n.toNat
    else '0' :: '.' :: (List.replicate (-n).toNat '0' ++ digits)
  else
    (match digits with
      | [] => []
      | [d] => [d]
      | d :: ds => d :: '.' :: ds) ++
      'e' :: (if n - 1 < 0 then '-' else '+') :: natDigits (n - 1).natAbs

/-- String form of a number (`Number::toString`, radix 10). -/
def numberToString : JSNumber → String
  | JSNumber.nan => "NaN"
  | JSNumber.infinity false => "Infinity"
  | JSNumber.infinity true => "-Infinity"
  | JSNumber.decimal negative s e =>
    if s = 0 then "0"
    else
      String.mk ((if negative then ['-'] else []) ++
        formatDecimal (natDigits (stripTrailingZeros s s e).1)
          ((natDigits (stripTrailingZeros s s e).1).length + (stripTrailingZeros s s e).2))

/-- The `ToString` conversion of a primitive other than a symbol: a string is
left as it is. -/
def toStr : Prim → String
  | Prim.undefined => "undefined"
  | Prim.null => "null"
  | Prim.bool true => "true"
  | Prim.bool false => "false"
  | Prim.num x => numberToString x
  | Prim.bigint n => bigintToString n
  | Prim.str s => s

/-- An array item that is `undefined` or `null` contributes the empty string
to `join`; any other item contributes its string form `r`. -/
def itemString (item : JSVal) (r : Except JSError String) : Except JSError String :=
  match item with
  | JSVal.prim Prim.undefined => Except.ok ""
  | JSVal.prim Prim.null => Except.ok ""
  | _ => r

mutual

/-- The conversion to a string that a template literal applies to a
substituted value. A primitive converts by `toStr`; a symbol throws a
`TypeError`; an array converts by `join`; a plain object gives
`[object Object]`, unless an own property shadows `toString` with data, in
which case no conversion method is left and a `TypeError` is thrown; any other
object does what it does. -/
def toStringOf : JSVal → Except JSError String
  | JSVal.prim p => Except.ok (toStr p)
  | JSVal.symbol _ => Except.error JSError.TypeError
  | JSVal.arr items => joinItems items
  | JSVal.obj fields =>
    if fields.any (fun f => f.1 = "toString") then Except.error JSError.TypeError
    else Except.ok "[object Object]"
  | JSVal.other conversion => conversion

/-- The method `Array.prototype.join` with the separator `,`: the items are
converted from left to right and the first failure is thrown. -/
def joinItems : List JSVal → Except JSError String
  | [] => Except.ok ""
  | [x] => itemString x (toStringOf x)
  | x :: y :: rest =>
    match itemString x (toStringOf x) with
    | Except.error e => Except.error e
    | Except.ok a =>
      match joinItems (y :: rest) with
      | Except.error e => Except.error e
      | Except.ok b => Except.ok (a ++ "," ++ b)

end

/-- The `ToBoolean` conversion on primitives. -/
def toBoolean : Prim → Bool
  | Prim.undefined => false
  | Prim.null => false
  | Prim.bool b => b
  | Prim.num JSNumber.nan => false
  | Prim.num (JSNumber.infinity _) => true
  | Prim.num (JSNumber.decimal _ s _) => decide (s ≠ 0)
  | Prim.bigint n => decide (n ≠ 0)
  | Prim.str s => decide (s ≠ "")

/-- The operator `a || b`: `a` when it is truthy, otherwise `b`. -/
def logicalOr (a b : Prim) : Prim :=
  if toBoolean a then a else b

/-! ## The axios instance (`api.js`, lines 1-10) -/

/-- The part of `import.meta.env` that `api.js` reads: `VITE_API_URL` is a
string when the setting is configured and `undefined` otherwise. -/
structure ImportMetaEnv where
  VITE_API_URL : Prim

/-- Source: `const API_BASE_URL = import.meta.env.VITE_API_URL || '/api'`. -/
def API_BASE_URL (env : ImportMetaEnv) : Prim :=
  logicalOr env.VITE_API_URL (Prim.str "/api")

/-- HTTP verbs used by the client. -/
inductive Verb where
  | GET
  | POST
  | PUT
  deriving DecidableEq, Repr

/-- One request handed to the HTTP client: verb, URL relative to the base URL,
and the body (`undefined` when the call passes none). -/
structure Request where
  method : Verb
  url : String
  data : JSVal

/-- How a call ends: with a promise that fulfils, with a promise that rejects,
or with an exception thrown instead of a promise. -/
inductive Outcome (R E : Type) where
  | fulfilled (r : R)
  | rejected (e : E)
  | threw (err : JSError)

/-- Configuration given to `axios.create`. -/
structure AxiosConfig where
  baseURL : Prim
  headers : List (String × String)

/-- An axios instance: its defaults and the transport that settles each
request it is given. -/
structure AxiosInstance (R E : Type) where
  defaults : AxiosConfig
  adapter : Request → Outcome R E

/-- The call `axios.create(config)` over a given transport. -/
def axios.create {R E : Type} (adapter : Request → Outcome R E) (config : AxiosConfig) :
    AxiosInstance R E :=
  AxiosInstance.mk config adapter

/-- Source: `const api = axios.create({ baseURL: API_BASE_URL, headers: {...} })`. -/
def api {R E : Type} (env : ImportMetaEnv) (adapter : Request → Outcome R E) :
    AxiosInstance R E :=
  axios.create adapter
    (AxiosConfig.mk (API_BASE_URL env) [("Content-Type", "application/json")])

/-- What one method call does: the requests it issued on the client, in
order, and how it ended. -/
structure CallResult (R E : Type) where
  issued : List Request
  returned : Outcome R E

/-- Hand one request to the instance and return its promise. -/
def AxiosInstance.request {R E : Type} (inst : AxiosInstance R E) (req : Request) :
    CallResult R E :=
  CallResult.mk [req] (inst.adapter req)

/-- The call `instance.get(url)`. -/
def AxiosInstance.get {R E : Type} (inst : AxiosInstance R E) (url : String) :
    CallResult R E :=
  inst.request (Request.mk Verb.GET url JSVal.undefined)

/-- The call `instance.post(url, data)`; a call without `data` passes `undefined`. -/
def AxiosInstance.post {R E : Type} (inst : AxiosInstance R E) (url : String)
    (data : JSVal) : CallResult R E :=
  inst.request (Request.mk Verb.POST url data)

/-- The call `instance.put(url, data)`. -/
def AxiosInstance.put {R E : Type} (inst : AxiosInstance R E) (url : String)
    (data : JSVal) : CallResult R E :=
  inst.request (Request.mk Verb.PUT url data)

/-- A method body that throws before it reaches the client: no request is
issued. -/
def throwBeforeRequest {R E : Type} (err : JSError) : CallResult R E :=
  CallResult.mk [] (Outcome.threw err)

/-! ## The exported methods (`api.js`, lines 12-66)

In each method with a template literal the argument is converted first
(`toStringOf`); the client is called only when the conversion succeeds. -/

section Methods

variable {R E : Type}

/-- Source: `healthCheck() { return api.get('/health'); }` -/
def healthCheck (api : AxiosInstance R E) : CallResult R E :=
  api.get "/health"

/-- Source: `getConfig() { return api.get('/config'); }` -/
def getConfig (api : AxiosInstance R E) : CallResult R E :=
  api.get "/config"

/-- Source: `getGlossary() { return api.get('/glossary'); }` -/
def getGlossary (api : AxiosInstance R E) : CallResult R E :=
  api.get "/glossary"

/-- Source: `addGlossaryTerm(source, target) { return api.post('/glossary', { source, target }); }` -/
def addGlossaryTerm (api : AxiosInstance R E) (source target : JSVal) : CallResult R E :=
  api.post "/glossary" (JSVal.obj [("source", source), ("target", target)])

/-- Source: `listBatches() { return api.get('/batches'); }` -/
def listBatches (api : AxiosInstance R E) : CallResult R E :=
  api.get "/batches"

/-- The default parameter `locale = 'en-us'`: the default replaces exactly the
value `undefined`. -/
def defaultParam (arg dflt : JSVal) : JSVal :=
  match arg with
  | JSVal.prim Prim.undefined => dflt
  | v => v

/-- Source: `createBatch(locale = 'en-us') { return api.post('/batches', { locale }); }` -/
def createBatch (api : AxiosInstance R E) (locale : JSVal) : CallResult R E :=
  api.post "/batches" (JSVal.obj [("locale", defaultParam locale (JSVal.str "en-us"))])

/-- Source: `getBatch(batchId)`: `api.get` on the template literal `/batches/<batchId>`. -/
def getBatch (api : AxiosInstance R E) (batchId : JSVal) : CallResult R E :=
  match toStringOf batchId with
  | Except.ok s => api.get ("/batches/" ++ s)
  | Except.error err => throwBeforeRequest err

/-- Source: `startBatch(batchId)`: `api.post` on `/batches/<batchId>/start`, no body argument. -/
def startBatch (api : AxiosInstance R E) (batchId : JSVal) : CallResult R E :=
  match toStringOf batchId with
  | Except.ok s => api.post ("/batches/" ++ s ++ "/start") JSVal.undefined
  | Except.error err => throwBeforeRequest err

/-- Source: `translateArticle(articleId, article)`: `api.post` on
`/articles/<articleId>/translate` with `{ article }`. -/
def translateArticle (api : AxiosInstance R E) (articleId : JSVal) (article : JSVal) :
    CallResult R E :=
  match toStringOf articleId with
  | Except.ok s => api.post ("/articles/" ++ s ++ "/translate") (JSVal.obj [("article", article)])
  | Except.error err => throwBeforeRequest err

/-- Source: `updateArticle(articleId, data)`: `api.put` on `/articles/<articleId>` with `data`. -/
def updateArticle (api : AxiosInstance R E) (articleId : JSVal) (data : JSVal) :
    CallResult R E :=
  match toStringOf articleId with
  | Except.ok s => api.put ("/articles/" ++ s) data
  | Except.error err => throwBeforeRequest err

/-- Source: `listOutputFiles() { return api.get('/output/list'); }` -/
def listOutputFiles (api : AxiosInstance R E) : CallResult R E :=
  api.get "/output/list"

/-- Source: `getOutputFile(filename)`: `api.get` on `/output/<filename>`. -/
def getOutputFile (api : AxiosInstance R E) (filename : JSVal) : CallResult R E :=
  match toStringOf filename with
  | Except.ok s => api.get ("/output/" ++ s)
  | Except.error err => throwBeforeRequest err

end Methods

/-- The keys of the exported object, in source order. -/
inductive Method where
  | healthCheck
  | getConfig
  | getGlossary
  | addGlossaryTerm
  | listBatches
  | createBatch
  | getBatch
  | startBatch
  | translateArticle
  | updateArticle
  | listOutputFiles
  | getOutputFile
  deriving DecidableEq, Repr

/-- Every exported method, in source order. -/
def Method.all : List Method :=
  [Method.healthCheck, Method.getConfig, Method.getGlossary, Method.addGlossaryTerm,
   Method.listBatches, Method.createBatch, Method.getBatch, Method.startBatch,
   Method.translateArticle, Method.updateArticle, Method.listOutputFiles,
   Method.getOutputFile]

/-- An invocation of an exported method with arbitrary argument values. -/
inductive Invocation where
  | healthCheck
  | getConfig
  | getGlossary
  | addGlossaryTerm (source target : JSVal)
  | listBatches
  | createBatch (locale : JSVal)
  | getBatch (batchId : JSVal)
  | startBatch (batchId : JSVal)
  | translateArticle (articleId : JSVal) (article : JSVal)
  | updateArticle (articleId : JSVal) (data : JSVal)
  | listOutputFiles
  | getOutputFile (filename : JSVal)

/-- The method an invocation names. -/
def Invocation.method : Invocation → Method
  | Invocation.healthCheck => Method.healthCheck
  | Invocation.getConfig => Method.getConfig
  | Invocation.getGlossary => Method.getGlossary
  | Invocation.addGlossaryTerm _ _ => Method.addGlossaryTerm
  | Invocation.listBatches => Method.listBatches
  | Invocation.createBatch _ => Method.createBatch
  | Invocation.getBatch _ => Method.getBatch
  | Invocation.startBatch _ => Method.startBatch
  | Invocation.translateArticle _ _ => Method.translateArticle
  | Invocation.updateArticle _ _ => Method.updateArticle
  | Invocation.listOutputFiles => Method.listOutputFiles
  | Invocation.getOutputFile _ => Method.getOutputFile

/-- The argument an invocation substitutes into its URL, if the method has one. -/
def Invocation.pathValue : Invocation → Option JSVal
  | Invocation.getBatch i => some i
  | Invocation.startBatch i => some i
  | Invocation.translateArticle i _ => some i
  | Invocation.updateArticle i _ => some i
  | Invocation.getOutputFile f => some f
  | _ => none

/-- Run an invocation on the instance: dispatch to the exported method. -/
def Invocation.run {R E : Type} (api : AxiosInstance R E) : Invocation → CallResult R E
  | Invocation.healthCheck => Zdkb.healthCheck api
  | Invocation.getConfig => Zdkb.getConfig api
  | Invocation.getGlossary => Zdkb.getGlossary api
  | Invocation.addGlossaryTerm s t => Zdkb.addGlossaryTerm api s t
  | Invocation.listBatches => Zdkb.listBatches api
  | Invocation.createBatch l => Zdkb.createBatch api l
  | Invocation.getBatch i => Zdkb.getBatch api i
  | Invocation.startBatch i => Zdkb.startBatch api i
  | Invocation.translateArticle i a => Zdkb.translateArticle api i a
  | Invocation.updateArticle i d => Zdkb.updateArticle api i d
  | Invocation.listOutputFiles => Zdkb.listOutputFiles api
  | Invocation.getOutputFile f => Zdkb.getOutputFile api f

/-- A call of an exported method whose identifier or file name is a primitive
other than a symbol, so that its template literal cannot throw. -/
inductive Call where
  | healthCheck
  | getConfig
  | getGlossary
  | addGlossaryTerm (source target : JSVal)
  | listBatches
  | createBatch (locale : JSVal)
  | getBatch (batchId : Prim)
  | startBatch (batchId : Prim)
  | translateArticle (articleId : Prim) (article : JSVal)
  | updateArticle (articleId : Prim) (data : JSVal)
  | listOutputFiles
  | getOutputFile (filename : Prim)

/-- The call as an invocation. -/
def Call.toInvocation : Call → Invocation
  | Call.healthCheck => Invocation.healthCheck
  | Call.getConfig => Invocation.getConfig
  | Call.getGlossary => Invocation.getGlossary
  | Call.addGlossaryTerm s t => Invocation.addGlossaryTerm s t
  | Call.listBatches => Invocation.listBatches
  | Call.createBatch l => Invocation.createBatch l
  | Call.getBatch i => Invocation.getBatch (JSVal.prim i)
  | Call.startBatch i => Invocation.startBatch (JSVal.prim i)
  | Call.translateArticle i a => Invocation.translateArticle (JSVal.prim i) a
  | Call.updateArticle i d => Invocation.updateArticle (JSVal.prim i) d
  | Call.listOutputFiles => Invocation.listOutputFiles
  | Call.getOutputFile f => Invocation.getOutputFile (JSVal.prim f)

/-- The method a call invokes. -/
def Call.method (c : Call) : Method := c.toInvocation.method

/-- Run a call on the instance. -/
def Call.run {R E : Type} (api : AxiosInstance R E) (c : Call) : CallResult R E :=
  c.toInvocation.run api

/-- The string a call substitutes into its URL: the converted identifier or
file name, and nothing for a call without a path parameter. -/
def Call.pathArg : Call → String
  | Call.getBatch i => toStr i
  | Call.startBatch i => toStr i
  | Call.translateArticle i _ => toStr i
  | Call.updateArticle i _ => toStr i
  | Call.getOutputFile f => toStr f
  | _ => ""

/-- Verb and URL of a request. -/
def Request.line (r : Request) : Verb × String := (r.method, r.url)

/-! ## The route table (`main.js`, lines 9-20) -/

/-- The view components imported by `main.js`. -/
inductive View where
  | BatchList
  | BatchDetail
  | ArticleEditor
  | GlossaryManager
  deriving DecidableEq, Repr

/-- What a route record does with a location it matches. -/
inductive RouteAction where
  | redirect (target : String)
  | component (view : View)
  deriving DecidableEq, Repr

/-- One entry of the `routes` array. -/
structure RouteRecord where
  path : String
  action : RouteAction
  deriving DecidableEq, Repr

/-- The `routes` array, in source order. -/
def routes : List RouteRecord :=
  [ RouteRecord.mk "/" (RouteAction.redirect "/batches"),
    RouteRecord.mk "/batches" (RouteAction.component View.BatchList),
    RouteRecord.mk "/batches/:id" (RouteAction.component View.BatchDetail),
    RouteRecord.mk "/articles/:id/edit" (RouteAction.component View.ArticleEditor),
    RouteRecord.mk "/glossary" (RouteAction.component View.GlossaryManager) ]

/-- One segment of a path pattern: literal text or a `:name` parameter. -/
inductive Token where
  | static (text : List Char)
  | param (name : List Char)
  deriving DecidableEq, Repr

/-- Split a character list at every `/`. -/
def splitSegments : List Char → List (List Char)
  | [] => [[]]
  | c :: cs =>
    if c = '/' then [] :: splitSegments cs
    else
      match splitSegments cs with
      | [] => [[c]]
      | s :: ss => (c :: s) :: ss

/-- Characters a parameter name is made of. -/
def isWordChar (c : Char) : Bool := c.isAlphanum || c = '_'

/-- The token of one pattern segment: `:name` with a non-empty name of word
characters is a parameter, text without `:` and without the escape character
is literal; an empty segment and any other form (custom expressions,
modifiers, several tokens in one segment) are not covered. -/
def tokenOf (seg : List Char) : Option Token :=
  match seg with
  | [] => none
  | ':' :: name =>
    if !name.isEmpty && name.all isWordChar then some (Token.param name) else none
  | _ =>
    if seg.all (fun c => c ≠ ':' && c ≠ '\\') then some (Token.static seg) else none

/-- The tokens of a list of pattern segments, when every segment has one. -/
def tokensOf : List (List Char) → Option (List Token)
  | [] => some []
  | seg :: segs =>
    match tokenOf seg, tokensOf segs with
    | some t, some ts => some (t :: ts)
    | _, _ => none

/-- Tokens of a path pattern, as the router's `tokenizePath` produces them:
the empty pattern has no token, the pattern `/` has the one root token (the
empty literal), any other pattern must begin with `/` and is split at every
`/` into segments of one token each. -/
def tokenizePath (pattern : String) : Option (List Token) :=
  match pattern.data with
  | [] => some []
  | ['/'] => some [Token.static []]
  | '/' :: rest => tokensOf (splitSegments rest)
  | _ => none

/-- Case folding of the router's case-insensitive match. -/
def foldCase (cs : List Char) : List Char := cs.map Char.toLower

/-- Whether a path segment satisfies a token: literal text compares without
regard to letter case, a parameter accepts any non-empty segment. -/
def Token.accepts (tok : Token) (seg : List Char) : Bool :=
  match tok with
  | Token.static text => decide (foldCase seg = foldCase text)
  | Token.param _ => !seg.isEmpty

/-- The test of the regular expression the router compiles from a token list
under its default options: each token consumes `/` and the characters up to
the next `/`; after the last token one trailing `/` is allowed. -/
def matchTokens : List Token → List Char → Bool
  | [], rest => decide (rest = [] ∨ rest = ['/'])
  | tok :: toks, '/' :: rest =>
    tok.accepts (rest.takeWhile (fun c => c ≠ '/')) &&
      matchTokens toks (rest.dropWhile (fun c => c ≠ '/'))
  | _ :: _, _ => false

/-- Whether the record's pattern matches the path of a location. -/
def RouteRecord.matchesPath (r : RouteRecord) (path : String) : Bool :=
  match tokenizePath r.path with
  | some toks => matchTokens toks path.data
  | none => false

/-- The record a path resolves to: the first record of the table that matches.
(The router tries records in order of specificity; for `routes` at most one
record matches any path, see `routes_match_unique`.) -/
def resolveRecord (table : List RouteRecord) (path : String) : Option RouteRecord :=
  table.find? (fun r => r.matchesPath path)

/-- Where a navigation ends. -/
inductive Navigation where
  | rendered (view : View) (redirects : Nat)
  | notFound
  | redirectLimit
  deriving DecidableEq, Repr

/-- Navigate to a path: resolve it and follow redirects, counting them;
`fuel` bounds the number of resolutions. -/
def navigate (table : List RouteRecord) : Nat → String → Nat → Navigation
  | 0, _, _ => Navigation.redirectLimit
  | fuel + 1, path, steps =>
    match resolveRecord table path with
    | none => Navigation.notFound
    | some r =>
      match r.action with
      | RouteAction.component v => Navigation.rendered v steps
      | RouteAction.redirect target => navigate table fuel target (steps + 1)

/-- Whether the record is a redirect. -/
def RouteRecord.isRedirect (r : RouteRecord) : Bool :=
  match r.action with
  | RouteAction.redirect _ => true
  | RouteAction.component _ => false

/-- Whether the record's pattern has a parameter called `name`. -/
def RouteRecord.hasParam (r : RouteRecord) (name : String) : Bool :=
  match tokenizePath r.path with
  | some toks => toks.any (fun t => decide (t = Token.param name.data))
  | none => false


/-! ## Supporting lemmas: strings and conversions -/

theorem digitChar_ne_l (d : Nat) (h : d < 10) : digitChar d ≠ 'l' := by
  interval_cases d <;> decide

/-- With fuel above `n` the digits produced are the base-10 digits of `n`,
most significant first. -/
theorem decimalDigits_eq_digits (fuel n : Nat) (hfuel : n < fuel) (hn : 0 < n) :
    decimalDigits fuel n = ((Nat.digits 10 n).reverse).map digitChar := by
  induction fuel generalizing n with
  | zero => omega
  | succ fuel ih =>
    unfold decimalDigits
    split
    · next hlt =>
      rw [Nat.digits_of_lt 10 n (by omega) hlt]
      rfl
    · next hge =>
      have hq : 0 < n / 10 := Nat.div_pos (by omega) (by decide)
      have hq2 : n / 10 < fuel := by
        have := Nat.div_lt_self hn (by decide : 1 < 10)
        omega
      rw [ih (n / 10) hq2 hq, Nat.digits_def' (by decide) hn]
      simp

theorem decimalDigits_zero (fuel : Nat) : decimalDigits (fuel + 1) 0 = ['0'] := by
  simp [decimalDigits, digitChar]

theorem decimalDigits_no_l (fuel n : Nat) : ∀ c ∈ decimalDigits fuel n, c ≠ 'l' := by
  induction fuel generalizing n with
  | zero => intro c hc; simp [decimalDigits] at hc
  | succ fuel ih =>
    intro c hc
    unfold decimalDigits at hc
    split at hc
    · next hlt =>
      simp at hc
      rw [hc]
      exact digitChar_ne_l n hlt
    · simp at hc
      rcases hc with hc | hc
      · exact ih _ c hc
      · rw [hc]
        exact digitChar_ne_l _ (Nat.mod_lt _ (by decide))

theorem natDigits_no_l (n : Nat) : ∀ c ∈ natDigits n, c ≠ 'l' :=
  decimalDigits_no_l (n + 1) n

theorem formatDecimal_no_l (digits : List Char) (n : Int)
    (hd : ∀ c ∈ digits, c ≠ 'l') : ∀ c ∈ formatDecimal digits n, c ≠ 'l' := by
  intro c hc
  unfold formatDecimal at hc
  split at hc
  · split at hc
    · simp at hc
      rcases hc with hc | ⟨_, hc⟩
      · exact hd c hc
      · rw [hc]; decide
    · split at hc
      · simp at hc
        rcases hc with hc | hc | hc
        · exact hd c (List.mem_of_mem_take hc)
        · rw [hc]; decide
        · exact hd c (List.mem_of_mem_drop hc)
      · simp at hc
        rcases hc with hc | hc | ⟨_, hc⟩ | hc
        · rw [hc]; decide
        · rw [hc]; decide
        · rw [hc]; decide
        · exact hd c hc
  · simp only [List.mem_append, List.mem_cons] at hc
    rcases hc with hc | hc | hc | hc
    · split at hc
      · simp at hc
      · next d =>
        exact hd c (by simpa using hc)
      · next d ds _ =>
        simp at hc
        rcases hc with hc | hc | hc
        · exact hd c (by simp [hc])
        · rw [hc]; decide
        · exact hd c (by simp [hc])
    · rw [hc]; decide
    · split at hc <;> (rw [hc]; decide)
    · exact natDigits_no_l _ c hc

theorem numberToString_no_l (x : JSNumber) : ∀ c ∈ (numberToString x).data, c ≠ 'l' := by
  intro c hc
  cases x with
  | nan => exact (by decide : ∀ c ∈ (numberToString JSNumber.nan).data, c ≠ 'l') c hc
  | infinity negative =>
    cases negative
    · exact (by decide : ∀ c ∈ (numberToString (JSNumber.infinity false)).data, c ≠ 'l') c hc
    · exact (by decide : ∀ c ∈ (numberToString (JSNumber.infinity true)).data, c ≠ 'l') c hc
  | decimal negative s e =>
    simp only [numberToString] at hc
    split at hc
    · exact (by decide : ∀ c ∈ ("0" : String).data, c ≠ 'l') c hc
    · simp only [List.mem_append] at hc
      rcases hc with hc | hc
      · split at hc
        · simp at hc
          rw [hc]; decide
        · simp at hc
      · exact formatDecimal_no_l _ _ (natDigits_no_l _) c hc

theorem bigintToString_no_l (n : Int) : ∀ c ∈ (bigintToString n).data, c ≠ 'l' := by
  intro c hc
  cases n with
  | ofNat k => exact natDigits_no_l k c hc
  | negSucc k =>
    simp only [bigintToString, List.mem_cons] at hc
    rcases hc with hc | hc
    · rw [hc]; decide
    · exact natDigits_no_l _ c hc

theorem ne_list_of_no_l (s : String) (h : ∀ c ∈ s.data, c ≠ 'l') : s ≠ "list" := by
  intro hs
  subst hs
  exact h 'l' (by decide) rfl

/-- The only primitive whose string form is `list` is the string `list`. -/
theorem toStr_eq_list_iff (p : Prim) : toStr p = "list" ↔ p = Prim.str "list" := by
  cases p with
  | undefined => simp [toStr]
  | null => simp [toStr]
  | bool b => cases b <;> simp [toStr]
  | num x => simp [toStr, ne_list_of_no_l _ (numberToString_no_l x)]
  | bigint n => simp [toStr, ne_list_of_no_l _ (bigintToString_no_l n)]
  | str s => simp [toStr]

theorem toStringOf_prim (p : Prim) : toStringOf (JSVal.prim p) = Except.ok (toStr p) := by
  simp [toStringOf]

theorem toStringOf_symbol (d : String) :
    toStringOf (JSVal.symbol d) = Except.error JSError.TypeError := by
  simp [toStringOf]

theorem toStringOf_other (c : Except JSError String) : toStringOf (JSVal.other c) = c := by
  simp [toStringOf]

theorem toStringOf_arr (items : List JSVal) :
    toStringOf (JSVal.arr items) = joinItems items := by
  simp [toStringOf]

/-- The string form of an array of two or more items contains a comma. -/
theorem joinItems_comma (x y : JSVal) (rest : List JSVal) (s : String)
    (h : joinItems (x :: y :: rest) = Except.ok s) : ',' ∈ s.data := by
  rw [joinItems] at h
  split at h
  · simp at h
  · split at h
    · simp at h
    · simp at h
      rw [← h]
      simp [String.data_append]

theorem itemString_eq_list_iff (x : JSVal) :
    itemString x (toStringOf x) = Except.ok "list" ↔ toStringOf x = Except.ok "list" := by
  unfold itemString
  split
  · simp [toStringOf, toStr]
  · simp [toStringOf, toStr]
  · rfl

/-- The values a template literal turns into `list`: the string `list`, an
array whose one item turns into `list`, and any other object whose conversion
returns `list`. -/
theorem toStringOf_eq_list_iff (v : JSVal) :
    toStringOf v = Except.ok "list" ↔
      v = JSVal.str "list" ∨ v = JSVal.other (Except.ok "list") ∨
        ∃ x, v = JSVal.arr [x] ∧ toStringOf x = Except.ok "list" := by
  cases v with
  | prim p =>
    simp only [toStringOf_prim, Except.ok.injEq, toStr_eq_list_iff, JSVal.str, JSVal.prim.injEq]
    simp
  | symbol d => simp [toStringOf_symbol, JSVal.str]
  | other c => simp [toStringOf_other, JSVal.str]
  | obj fields =>
    have h : ("[object Object]" : String) ≠ "list" := by decide
    simp only [toStringOf, JSVal.str]
    split <;> simp [h]
  | arr items =>
    rw [toStringOf_arr]
    match items with
    | [] =>
      have h : ("" : String) ≠ "list" := by decide
      simp [joinItems, JSVal.str, h]
    | [x] =>
      rw [joinItems, itemString_eq_list_iff]
      simp [JSVal.str]
    | x :: y :: rest =>
      constructor
      · intro h
        have := joinItems_comma x y rest _ h
        exact absurd this (by decide)
      · intro h
        simp [JSVal.str] at h

theorem defaultParam_of_ne_undefined (l dflt : JSVal) (h : l ≠ JSVal.undefined) :
    defaultParam l dflt = l := by
  unfold defaultParam
  split
  · exact absurd rfl h
  · rfl

/-! ## The API client -/

/-- Every invocation either throws while its template literal is built, with
no request issued, or issues one request and ends as the client call ends. -/
theorem invocation_run_cases {R E : Type} (api : AxiosInstance R E) (c : Invocation) :
    ((c.run api).issued = [] ∧ ∃ err, (c.run api).returned = Outcome.threw err) ∨
    ∃ req, (c.run api).issued = [req] ∧ (c.run api).returned = api.adapter req := by
  cases c with
  | healthCheck => exact Or.inr ⟨_, rfl, rfl⟩
  | getConfig => exact Or.inr ⟨_, rfl, rfl⟩
  | getGlossary => exact Or.inr ⟨_, rfl, rfl⟩
  | addGlossaryTerm s t => exact Or.inr ⟨_, rfl, rfl⟩
  | listBatches => exact Or.inr ⟨_, rfl, rfl⟩
  | createBatch l => exact Or.inr ⟨_, rfl, rfl⟩
  | listOutputFiles => exact Or.inr ⟨_, rfl, rfl⟩
  | getBatch v =>
    cases h : toStringOf v with
    | error err => exact Or.inl (by simp [Invocation.run, Zdkb.getBatch, h, throwBeforeRequest])
    | ok s =>
      exact Or.inr (by
        simp [Invocation.run, Zdkb.getBatch, h, AxiosInstance.get, AxiosInstance.request])
  | startBatch v =>
    cases h : toStringOf v with
    | error err => exact Or.inl (by simp [Invocation.run, Zdkb.startBatch, h, throwBeforeRequest])
    | ok s =>
      exact Or.inr (by
        simp [Invocation.run, Zdkb.startBatch, h, AxiosInstance.post, AxiosInstance.request])
  | translateArticle v a =>
    cases h : toStringOf v with
    | error err =>
      exact Or.inl (by simp [Invocation.run, Zdkb.translateArticle, h, throwBeforeRequest])
    | ok s =>
      exact Or.inr (by
        simp [Invocation.run, Zdkb.translateArticle, h, AxiosInstance.post,
          AxiosInstance.request])
  | updateArticle v d =>
    cases h : toStringOf v with
    | error err =>
      exact Or.inl (by simp [Invocation.run, Zdkb.updateArticle, h, throwBeforeRequest])
    | ok s =>
      exact Or.inr (by
        simp [Invocation.run, Zdkb.updateArticle, h, AxiosInstance.put, AxiosInstance.request])
  | getOutputFile v =>
    cases h : toStringOf v with
    | error err =>
      exact Or.inl (by simp [Invocation.run, Zdkb.getOutputFile, h, throwBeforeRequest])
    | ok s =>
      exact Or.inr (by
        simp [Invocation.run, Zdkb.getOutputFile, h, AxiosInstance.get, AxiosInstance.request])

/-- C1, as stated, fails: `getBatch` with a Symbol as identifier throws while
its template literal is built and builds no request at all. -/
theorem C1_symbol_id_counterexample :
    (getBatch (api (ImportMetaEnv.mk Prim.undefined)
        (fun _ => (Outcome.fulfilled () : Outcome Unit Unit))) (JSVal.symbol "s")).issued = [] ∧
    ¬ ∃ url, (getBatch (api (ImportMetaEnv.mk Prim.undefined)
        (fun _ => (Outcome.fulfilled () : Outcome Unit Unit))) (JSVal.symbol "s")).issued
      = [Request.mk Verb.GET url JSVal.undefined] := by
  have h : (getBatch (api (ImportMetaEnv.mk Prim.undefined)
        (fun _ => (Outcome.fulfilled () : Outcome Unit Unit))) (JSVal.symbol "s")).issued = [] := by
    simp [getBatch, toStringOf, throwBeforeRequest]
  refine ⟨h, ?_⟩
  rintro ⟨url, hu⟩
  rw [h] at hu
  simp at hu

/-- C1, amended: for every argument value that a template literal can convert
to a string (`id` to `i`, `f` to `n`), every exported method builds the
request of its row in the REST table, with the converted text in the URL. The
eight calls without a body are given in full (their body is `undefined`); for
the four calls with a body the verb and the URL are given. A string is
converted to itself, so a string parameter is inserted verbatim and
`getBatch('42')` requests `GET /batches/42`; the other conversions are the
standard ones of the language, shown on `undefined`, `null`, the booleans,
numbers, a BigInt, arrays, a plain object and an object with a conversion of
its own. -/
theorem C1_methods_build_rest_table_requests {R E : Type} (api : AxiosInstance R E)
    (id f : JSVal) (i n x : String) (s t l a d : JSVal)
    (hid : toStringOf id = Except.ok i) (hf : toStringOf f = Except.ok n) :
    (healthCheck api).issued = [Request.mk Verb.GET "/health" JSVal.undefined] ∧
    (getConfig api).issued = [Request.mk Verb.GET "/config" JSVal.undefined] ∧
    (getGlossary api).issued = [Request.mk Verb.GET "/glossary" JSVal.undefined] ∧
    (addGlossaryTerm api s t).issued.map Request.line
      = [(Verb.POST, "/glossary")] ∧
    (listBatches api).issued = [Request.mk Verb.GET "/batches" JSVal.undefined] ∧
    (createBatch api l).issued.map Request.line
      = [(Verb.POST, "/batches")] ∧
    (getBatch api id).issued
      = [Request.mk Verb.GET ("/batches/" ++ i) JSVal.undefined] ∧
    (startBatch api id).issued
      = [Request.mk Verb.POST ("/batches/" ++ i ++ "/start") JSVal.undefined] ∧
    (translateArticle api id a).issued.map Request.line
      = [(Verb.POST, "/articles/" ++ i ++ "/translate")] ∧
    (updateArticle api id d).issued.map Request.line
      = [(Verb.PUT, "/articles/" ++ i)] ∧
    (listOutputFiles api).issued = [Request.mk Verb.GET "/output/list" JSVal.undefined] ∧
    (getOutputFile api f).issued
      = [Request.mk Verb.GET ("/output/" ++ n) JSVal.undefined] ∧
    toStr (Prim.str x) = x ∧
    toStringOf (JSVal.str x) = Except.ok x ∧
    (getBatch api (Prim.str x)).issued
      = [Request.mk Verb.GET ("/batches/" ++ x) JSVal.undefined] ∧
    (startBatch api (Prim.str x)).issued
      = [Request.mk Verb.POST ("/batches/" ++ x ++ "/start") JSVal.undefined] ∧
    (translateArticle api (Prim.str x) a).issued.map Request.line
      = [(Verb.POST, "/articles/" ++ x ++ "/translate")] ∧
    (updateArticle api (Prim.str x) d).issued.map Request.line
      = [(Verb.PUT, "/articles/" ++ x)] ∧
    (getOutputFile api (Prim.str x)).issued
      = [Request.mk Verb.GET ("/output/" ++ x) JSVal.undefined] ∧
    (getBatch api (Prim.str "42")).issued
      = [Request.mk Verb.GET "/batches/42" JSVal.undefined] ∧
    toStringOf JSVal.undefined = Except.ok "undefined" ∧
    toStringOf (JSVal.prim Prim.null) = Except.ok "null" ∧
    toStringOf (JSVal.prim (Prim.bool true)) = Except.ok "true" ∧
    toStringOf (JSVal.prim (Prim.bool false)) = Except.ok "false" ∧
    toStringOf (JSVal.prim (Prim.num (JSNumber.decimal false 42 0))) = Except.ok "42" ∧
    toStringOf (JSVal.prim (Prim.num (JSNumber.decimal false 360001234567 0)))
      = Except.ok "360001234567" ∧
    toStringOf (JSVal.prim (Prim.num (JSNumber.decimal true 7 0))) = Except.ok "-7" ∧
    toStringOf (JSVal.prim (Prim.num (JSNumber.decimal true 0 0))) = Except.ok "0" ∧
    toStringOf (JSVal.prim (Prim.num (JSNumber.decimal false 15 (-1)))) = Except.ok "1.5" ∧
    toStringOf (JSVal.prim (Prim.num (JSNumber.decimal false 1 (-7)))) = Except.ok "1e-7" ∧
    toStringOf (JSVal.prim (Prim.num (JSNumber.decimal false 1 20)))
      = Except.ok "100000000000000000000" ∧
    toStringOf (JSVal.prim (Prim.num (JSNumber.decimal false 1 21))) = Except.ok "1e+21" ∧
    toStringOf (JSVal.prim (Prim.num (JSNumber.decimal false 7378697629483821 4)))
      = Except.ok "73786976294838210000" ∧
    toStringOf (JSVal.prim (Prim.num JSNumber.nan)) = Except.ok "NaN" ∧
    toStringOf (JSVal.prim (Prim.num (JSNumber.infinity true))) = Except.ok "-Infinity" ∧
    toStringOf (JSVal.prim (Prim.bigint 1000000000000000000000))
      = Except.ok "1000000000000000000000" ∧
    toStringOf (JSVal.prim (Prim.num (JSNumber.decimal false 4200 (-2)))) = Except.ok "42" ∧
    toStringOf (JSVal.arr [JSVal.str "a", JSVal.undefined, JSVal.prim Prim.null, JSVal.str "b"])
      = Except.ok "a,,,b" ∧
    toStringOf (JSVal.arr [JSVal.str "42"]) = Except.ok "42" ∧
    toStringOf (JSVal.obj [("id", JSVal.str "42")]) = Except.ok "[object Object]" ∧
    toStringOf (JSVal.other (Except.ok x)) = Except.ok x ∧
    (getBatch api (Prim.num (JSNumber.decimal false 42 0))).issued
      = [Request.mk Verb.GET "/batches/42" JSVal.undefined] ∧
    (getBatch api (Prim.num (JSNumber.decimal false 1 21))).issued
      = [Request.mk Verb.GET "/batches/1e+21" JSVal.undefined] := by
  have e42 : "/batches/" ++ toStr (Prim.str "42") = "/batches/42" := by decide
  have n42 : "/batches/" ++ toStr (Prim.num (JSNumber.decimal false 42 0)) = "/batches/42" := by
    decide
  have n21 : "/batches/" ++ toStr (Prim.num (JSNumber.decimal false 1 21))
      = "/batches/1e+21" := by decide
  have c1 : toStr (Prim.num (JSNumber.decimal false 42 0)) = "42" := by decide
  have c2 : toStr (Prim.num (JSNumber.decimal false 360001234567 0)) = "360001234567" := by
    decide
  have c3 : toStr (Prim.num (JSNumber.decimal true 7 0)) = "-7" := by decide
  have c4 : toStr (Prim.num (JSNumber.decimal true 0 0)) = "0" := by decide
  have c5 : toStr (Prim.num (JSNumber.decimal false 15 (-1))) = "1.5" := by decide
  have c6 : toStr (Prim.num (JSNumber.decimal false 1 (-7))) = "1e-7" := by decide
  have c7 : toStr (Prim.num (JSNumber.decimal false 1 20)) = "100000000000000000000" := by
    decide
  have c8 : toStr (Prim.num (JSNumber.decimal false 1 21)) = "1e+21" := by decide
  have c9 : toStr (Prim.num (JSNumber.decimal false 7378697629483821 4))
      = "73786976294838210000" := by decide
  have c10 : toStr (Prim.num JSNumber.nan) = "NaN" := by decide
  have c11 : toStr (Prim.num (JSNumber.infinity true)) = "-Infinity" := by decide
  have c12 : toStr (Prim.bigint 1000000000000000000000) = "1000000000000000000000" := by
    decide
  have c13 : toStr (Prim.num (JSNumber.decimal false 4200 (-2))) = "42" := by decide
  have j1 : ("a" : String) ++ "," ++ ("" ++ "," ++ ("" ++ "," ++ "b")) = "a,,,b" := by decide
  refine ⟨rfl, rfl, rfl, rfl, rfl, rfl, ?_, ?_, ?_, ?_, rfl, ?_, rfl, rfl, rfl, rfl, rfl, rfl,
    rfl, ?_, rfl, rfl, rfl, rfl, ?_, ?_, ?_, ?_, ?_, ?_, ?_, ?_, ?_, ?_, ?_, ?_, ?_, ?_, ?_,
    ?_, ?_, ?_, ?_⟩
  · simp [getBatch, hid, AxiosInstance.get, AxiosInstance.request]
  · simp [startBatch, hid, AxiosInstance.post, AxiosInstance.request]
  · simp [translateArticle, hid, AxiosInstance.post, AxiosInstance.request, Request.line]
  · simp [updateArticle, hid, AxiosInstance.put, AxiosInstance.request, Request.line]
  · simp [getOutputFile, hf, AxiosInstance.get, AxiosInstance.request]
  · simp [getBatch, toStringOf, AxiosInstance.get, AxiosInstance.request, e42]
  · rw [toStringOf_prim, c1]
  · rw [toStringOf_prim, c2]
  · rw [toStringOf_prim, c3]
  · rw [toStringOf_prim, c4]
  · rw [toStringOf_prim, c5]
  · rw [toStringOf_prim, c6]
  · rw [toStringOf_prim, c7]
  · rw [toStringOf_prim, c8]
  · rw [toStringOf_prim, c9]
  · rw [toStringOf_prim, c10]
  · rw [toStringOf_prim, c11]
  · rw [toStringOf_prim, c12]
  · rw [toStringOf_prim, c13]
  · simp [toStringOf, joinItems, itemString, JSVal.str, JSVal.undefined, toStr, j1]
  · simp [toStringOf, joinItems, itemString, JSVal.str, toStr]
  · simp [toStringOf]
  · simp [toStringOf]
  · simp [getBatch, toStringOf, AxiosInstance.get, AxiosInstance.request, n42]
  · simp [getBatch, toStringOf, AxiosInstance.get, AxiosInstance.request, n21]

/-- Witness for C1: the identifier is the number 42, the file name the array
`['a', 'b']`. -/
theorem C1_methods_build_rest_table_requests_witness :
    toStringOf (JSVal.prim (Prim.num (JSNumber.decimal false 42 0))) = Except.ok "42" ∧
    toStringOf (JSVal.arr [JSVal.str "a", JSVal.str "b"]) = Except.ok "a,b" ∧
    (getBatch (api (ImportMetaEnv.mk Prim.undefined)
        (fun _ => (Outcome.fulfilled () : Outcome Unit Unit)))
        (JSVal.prim (Prim.num (JSNumber.decimal false 42 0)))).issued
      = [Request.mk Verb.GET ("/batches/" ++ "42") JSVal.undefined] ∧
    (getOutputFile (api (ImportMetaEnv.mk Prim.undefined)
        (fun _ => (Outcome.fulfilled () : Outcome Unit Unit)))
        (JSVal.arr [JSVal.str "a", JSVal.str "b"])).issued
      = [Request.mk Verb.GET ("/output/" ++ "a,b") JSVal.undefined] := by
  have h1 : toStringOf (JSVal.prim (Prim.num (JSNumber.decimal false 42 0)))
      = Except.ok "42" := by
    rw [toStringOf_prim]
    exact congrArg Except.ok (by decide)
  have h2 : toStringOf (JSVal.arr [JSVal.str "a", JSVal.str "b"]) = Except.ok "a,b" := by
    have j : ("a" : String) ++ "," ++ "b" = "a,b" := by decide
    simp [toStringOf, joinItems, itemString, JSVal.str, toStr, j]
  have h := C1_methods_build_rest_table_requests
    (api (ImportMetaEnv.mk Prim.undefined) (fun _ => (Outcome.fulfilled () : Outcome Unit Unit)))
    (JSVal.prim (Prim.num (JSNumber.decimal false 42 0)))
    (JSVal.arr [JSVal.str "a", JSVal.str "b"]) "42" "a,b" "x"
    JSVal.undefined JSVal.undefined JSVal.undefined JSVal.undefined JSVal.undefined h1 h2
  exact ⟨h1, h2, h.2.2.2.2.2.2.1, h.2.2.2.2.2.2.2.2.2.2.2.1⟩

/-- C2: the bodies of the four mutating calls. `addGlossaryTerm(s, t)` sends
the object with the two fields `source = s`, `target = t`; `createBatch(l)`
with `l` supplied sends the object with the one field `locale = l`;
`translateArticle(id, a)` sends the object with the one field `article = a`;
`updateArticle(id, d)` sends `d` itself. -/
theorem C2_request_bodies {R E : Type} (api : AxiosInstance R E)
    (id : Prim) (s t l a d : JSVal) (hl : l ≠ JSVal.undefined) :
    (addGlossaryTerm api s t).issued.map Request.data
      = [JSVal.obj [("source", s), ("target", t)]] ∧
    (createBatch api l).issued.map Request.data = [JSVal.obj [("locale", l)]] ∧
    (translateArticle api id a).issued.map Request.data = [JSVal.obj [("article", a)]] ∧
    (updateArticle api id d).issued.map Request.data = [d] := by
  refine ⟨rfl, ?_, rfl, rfl⟩
  simp [createBatch, AxiosInstance.post, AxiosInstance.request,
    defaultParam_of_ne_undefined l _ hl]

/-- Witness for C2: string arguments, the locale `'ja'`. -/
theorem C2_request_bodies_witness :
    (addGlossaryTerm (api (ImportMetaEnv.mk Prim.undefined)
        (fun _ => (Outcome.fulfilled () : Outcome Unit Unit)))
        (JSVal.str "cat") (JSVal.str "neko")).issued.map Request.data
      = [JSVal.obj [("source", JSVal.str "cat"), ("target", JSVal.str "neko")]] ∧
    (createBatch (api (ImportMetaEnv.mk Prim.undefined)
        (fun _ => (Outcome.fulfilled () : Outcome Unit Unit)))
        (JSVal.str "ja")).issued.map Request.data
      = [JSVal.obj [("locale", JSVal.str "ja")]] ∧
    (translateArticle (api (ImportMetaEnv.mk Prim.undefined)
        (fun _ => (Outcome.fulfilled () : Outcome Unit Unit)))
        (Prim.num (JSNumber.decimal false 7 0)) (JSVal.obj [])).issued.map Request.data
      = [JSVal.obj [("article", JSVal.obj [])]] ∧
    (updateArticle (api (ImportMetaEnv.mk Prim.undefined)
        (fun _ => (Outcome.fulfilled () : Outcome Unit Unit)))
        (Prim.num (JSNumber.decimal false 7 0)) (JSVal.arr [])).issued.map Request.data
      = [JSVal.arr []] :=
  C2_request_bodies _ (Prim.num (JSNumber.decimal false 7 0)) (JSVal.str "cat") (JSVal.str "neko") (JSVal.str "ja")
    (JSVal.obj []) (JSVal.arr []) (by simp [JSVal.str, JSVal.undefined])

/-- C3: `createBatch` without an argument (locale `undefined`) issues
`POST /batches` with the body `{locale: 'en-us'}`; for every supplied locale
`l` the body is `{locale: l}`, the empty string included. -/
theorem C3_createBatch_default_locale {R E : Type} (api : AxiosInstance R E)
    (l : JSVal) (hl : l ≠ JSVal.undefined) :
    (createBatch api JSVal.undefined).issued
      = [Request.mk Verb.POST "/batches" (JSVal.obj [("locale", JSVal.str "en-us")])] ∧
    (createBatch api l).issued
      = [Request.mk Verb.POST "/batches" (JSVal.obj [("locale", l)])] ∧
    (createBatch api (JSVal.str "")).issued
      = [Request.mk Verb.POST "/batches" (JSVal.obj [("locale", JSVal.str "")])] := by
  refine ⟨rfl, ?_, rfl⟩
  simp [createBatch, AxiosInstance.post, AxiosInstance.request,
    defaultParam_of_ne_undefined l _ hl]

/-- Witness for C3: the supplied locale `null`. -/
theorem C3_createBatch_default_locale_witness :
    (createBatch (api (ImportMetaEnv.mk Prim.undefined)
        (fun _ => (Outcome.rejected () : Outcome Unit Unit))) JSVal.undefined).issued
      = [Request.mk Verb.POST "/batches" (JSVal.obj [("locale", JSVal.str "en-us")])] ∧
    (createBatch (api (ImportMetaEnv.mk Prim.undefined)
        (fun _ => (Outcome.rejected () : Outcome Unit Unit))) (JSVal.prim Prim.null)).issued
      = [Request.mk Verb.POST "/batches" (JSVal.obj [("locale", JSVal.prim Prim.null)])] ∧
    (createBatch (api (ImportMetaEnv.mk Prim.undefined)
        (fun _ => (Outcome.rejected () : Outcome Unit Unit))) (JSVal.str "")).issued
      = [Request.mk Verb.POST "/batches" (JSVal.obj [("locale", JSVal.str "")])] :=
  C3_createBatch_default_locale _ (JSVal.prim Prim.null) (by simp [JSVal.undefined])


/-- C4, as stated, fails: with `VITE_API_URL` configured as the empty string
the base URL of the client is `/api`, not the configured value. -/
theorem C4_empty_setting_counterexample :
    (api (ImportMetaEnv.mk (Prim.str ""))
        (fun _ => (Outcome.fulfilled () : Outcome Unit Unit))).defaults.baseURL
      = Prim.str "/api" ∧
    (api (ImportMetaEnv.mk (Prim.str ""))
        (fun _ => (Outcome.fulfilled () : Outcome Unit Unit))).defaults.baseURL
      ≠ Prim.str "" := by
  constructor <;> decide

/-- C4, amended: the base URL of the client is `/api` when `VITE_API_URL` is
absent or the empty string, and is the value of the setting for every
non-empty configured string. -/
theorem C4_base_url {R E : Type} (adapter : Request → Outcome R E)
    (s : String) (hs : s ≠ "") :
    (api (ImportMetaEnv.mk Prim.undefined) adapter).defaults.baseURL = Prim.str "/api" ∧
    (api (ImportMetaEnv.mk (Prim.str "")) adapter).defaults.baseURL = Prim.str "/api" ∧
    (api (ImportMetaEnv.mk (Prim.str s)) adapter).defaults.baseURL = Prim.str s := by
  refine ⟨rfl, ?_, ?_⟩
  · simp [api, axios.create, API_BASE_URL, logicalOr, toBoolean]
  · simp [api, axios.create, API_BASE_URL, logicalOr, toBoolean, hs]

/-- Witness for C4: the setting `http://localhost:8000/api`. -/
theorem C4_base_url_witness :
    (api (ImportMetaEnv.mk Prim.undefined)
        (fun _ => (Outcome.fulfilled () : Outcome Unit Unit))).defaults.baseURL
      = Prim.str "/api" ∧
    (api (ImportMetaEnv.mk (Prim.str ""))
        (fun _ => (Outcome.fulfilled () : Outcome Unit Unit))).defaults.baseURL
      = Prim.str "/api" ∧
    (api (ImportMetaEnv.mk (Prim.str "http://localhost:8000/api"))
        (fun _ => (Outcome.fulfilled () : Outcome Unit Unit))).defaults.baseURL
      = Prim.str "http://localhost:8000/api" :=
  C4_base_url _ "http://localhost:8000/api" (by decide)

/-- C6: every call returns the outcome of the one client request it issued,
unchanged: it fulfils with `r` when the client fulfils with `r` and rejects
with `e` when the client rejects with `e`. -/
theorem C6_outcome_passed_through {R E : Type} (api : AxiosInstance R E) (c : Call) :
    ∃ req, (c.run api).issued = [req] ∧
      (c.run api).returned = api.adapter req ∧
      (∀ r, api.adapter req = Outcome.fulfilled r →
        (c.run api).returned = Outcome.fulfilled r) ∧
      (∀ e, api.adapter req = Outcome.rejected e →
        (c.run api).returned = Outcome.rejected e) := by
  cases c <;> exact ⟨_, rfl, rfl, fun _ h => h, fun _ h => h⟩

/-- C7, as stated, fails: the exported object has twelve methods, not thirteen. -/
theorem C7_thirteen_methods_counterexample : ¬ (Method.all.length = 13) := by
  decide

/-- C7, amended: the API client exposes twelve methods (`Method.all` lists
each method once and misses none), and each is mapped to one HTTP verb and
one path shape: verb, text before and text after the substituted parameter
depend on the method alone. -/
theorem C7_twelve_methods :
    Method.all.length = 12 ∧ Method.all.Nodup ∧ (∀ m : Method, m ∈ Method.all) ∧
    ∃ row : Method → Verb × String × String,
      ∀ (R E : Type) (api : AxiosInstance R E) (c : Call),
        (c.run api).issued.map Request.line
          = [((row c.method).1, (row c.method).2.1 ++ c.pathArg ++ (row c.method).2.2)] := by
  refine ⟨by decide, by decide, fun m => by cases m <;> decide, ?_⟩
  refine ⟨fun m => match m with
    | Method.healthCheck => (Verb.GET, "/health", "")
    | Method.getConfig => (Verb.GET, "/config", "")
    | Method.getGlossary => (Verb.GET, "/glossary", "")
    | Method.addGlossaryTerm => (Verb.POST, "/glossary", "")
    | Method.listBatches => (Verb.GET, "/batches", "")
    | Method.createBatch => (Verb.POST, "/batches", "")
    | Method.getBatch => (Verb.GET, "/batches/", "")
    | Method.startBatch => (Verb.POST, "/batches/", "/start")
    | Method.translateArticle => (Verb.POST, "/articles/", "/translate")
    | Method.updateArticle => (Verb.PUT, "/articles/", "")
    | Method.listOutputFiles => (Verb.GET, "/output/list", "")
    | Method.getOutputFile => (Verb.GET, "/output/", ""), ?_⟩
  intro R E api c
  cases c <;>
    simp [Call.run, Call.method, Call.pathArg, Call.toInvocation, Invocation.run,
      Invocation.method, toStringOf, Request.line, healthCheck, getConfig,
      getGlossary, addGlossaryTerm, listBatches, createBatch, getBatch, startBatch,
      translateArticle, updateArticle, listOutputFiles, getOutputFile, AxiosInstance.get,
      AxiosInstance.post, AxiosInstance.put, AxiosInstance.request]

/-- C9, as stated, fails: `getBatch` with a Symbol as identifier throws a
`TypeError` while its template literal is built, before the client is
reached, and issues no request. -/
theorem C9_symbol_id_counterexample :
    ((Invocation.getBatch (JSVal.symbol "s")).run (api (ImportMetaEnv.mk Prim.undefined)
        (fun _ => (Outcome.fulfilled () : Outcome Unit Unit)))).issued.length ≠ 1 ∧
    ((Invocation.getBatch (JSVal.symbol "s")).run (api (ImportMetaEnv.mk Prim.undefined)
        (fun _ => (Outcome.fulfilled () : Outcome Unit Unit)))).issued = [] ∧
    ((Invocation.getBatch (JSVal.symbol "s")).run (api (ImportMetaEnv.mk Prim.undefined)
        (fun _ => (Outcome.fulfilled () : Outcome Unit Unit)))).returned
      = Outcome.threw JSError.TypeError := by
  simp [Invocation.run, getBatch, toStringOf, throwBeforeRequest]

/-- C9, amended: one invocation of any method, with any argument values,
never issues a second request. It issues exactly one request when the method
has no path parameter and when the path argument can be converted to a
string, which is so for every primitive other than a symbol (an absent
identifier, an empty file name and an absent body each give one request);
when the conversion throws (a Symbol, an array holding one, an object whose
conversion throws) the invocation throws that error before the client is
reached and issues no request. -/
theorem C9_at_most_one_request {R E : Type} (api : AxiosInstance R E) (c : Invocation) :
    (c.run api).issued.length ≤ 1 ∧
    (c.pathValue = none → (c.run api).issued.length = 1) ∧
    (∀ v s, c.pathValue = some v → toStringOf v = Except.ok s →
      (c.run api).issued.length = 1) ∧
    (∀ v err, c.pathValue = some v → toStringOf v = Except.error err →
      (c.run api).issued = [] ∧ (c.run api).returned = Outcome.threw err) ∧
    (∀ p : Prim, toStringOf (JSVal.prim p) = Except.ok (toStr p)) ∧
    (∀ d : String, toStringOf (JSVal.symbol d) = Except.error JSError.TypeError) ∧
    (∀ d : String, toStringOf (JSVal.arr [JSVal.symbol d])
      = Except.error JSError.TypeError) ∧
    (∀ err, toStringOf (JSVal.other (Except.error err)) = Except.error err) ∧
    toStringOf (JSVal.obj [("toString", JSVal.str "x")]) = Except.error JSError.TypeError ∧
    (getBatch api Prim.undefined).issued
      = [Request.mk Verb.GET "/batches/undefined" JSVal.undefined] ∧
    (getOutputFile api (Prim.str "")).issued
      = [Request.mk Verb.GET "/output/" JSVal.undefined] ∧
    (updateArticle api Prim.undefined JSVal.undefined).issued
      = [Request.mk Verb.PUT "/articles/undefined" JSVal.undefined] := by
  have h1 : "/batches/" ++ toStr Prim.undefined = "/batches/undefined" := by decide
  have h2 : "/output/" ++ toStr (Prim.str "") = "/output/" := by decide
  have h3 : "/articles/" ++ toStr Prim.undefined = "/articles/undefined" := by decide
  refine ⟨?_, ?_, ?_, ?_, toStringOf_prim, toStringOf_symbol, ?_, ?_, ?_, ?_, ?_, ?_⟩
  · rcases invocation_run_cases api c with ⟨h, _⟩ | ⟨req, h, _⟩ <;> simp [h]
  · intro hn
    cases c <;> first | rfl | simp [Invocation.pathValue] at hn
  · intro v s hv hs
    cases c <;> simp [Invocation.pathValue] at hv <;> subst hv <;>
      simp [Invocation.run, getBatch, startBatch, translateArticle, updateArticle,
        getOutputFile, hs, AxiosInstance.get, AxiosInstance.post, AxiosInstance.put,
        AxiosInstance.request]
  · intro v err hv hs
    cases c <;> simp [Invocation.pathValue] at hv <;> subst hv <;>
      simp [Invocation.run, getBatch, startBatch, translateArticle, updateArticle,
        getOutputFile, hs, throwBeforeRequest]
  · intro d
    simp [toStringOf, joinItems, itemString]
  · intro err
    simp [toStringOf]
  · simp [toStringOf]
  · simp [getBatch, toStringOf, AxiosInstance.get, AxiosInstance.request, h1]
  · simp [getOutputFile, toStringOf, AxiosInstance.get, AxiosInstance.request, h2]
  · simp [updateArticle, toStringOf, AxiosInstance.put, AxiosInstance.request, h3]

/-- C10, as stated, fails: `getOutputFile(['list'])` issues the same
`GET /output/list` as `listOutputFiles()`, although its file name is an array
and not the string `list`. -/
theorem C10_array_filename_counterexample :
    ((Invocation.getOutputFile (JSVal.arr [JSVal.str "list"])).run
        (api (ImportMetaEnv.mk Prim.undefined)
          (fun _ => (Outcome.fulfilled () : Outcome Unit Unit)))).issued.map Request.line
      = [(Verb.GET, "/output/list")] ∧
    (Invocation.listOutputFiles.run
        (api (ImportMetaEnv.mk Prim.undefined)
          (fun _ => (Outcome.fulfilled () : Outcome Unit Unit)))).issued.map Request.line
      = [(Verb.GET, "/output/list")] ∧
    JSVal.arr [JSVal.str "list"] ≠ JSVal.str "list" := by
  have h : "/output/" ++ "list" = "/output/list" := by decide
  refine ⟨?_, rfl, ?_⟩
  · simp [Invocation.run, getOutputFile, toStringOf, joinItems, itemString, JSVal.str, toStr,
      AxiosInstance.get, AxiosInstance.request, Request.line, h]
  · simp [JSVal.str]

set_option maxHeartbeats 4000000 in
/-- C10, amended: two invocations of distinct methods both issue a request
with the same verb and the same URL exactly when one is `listOutputFiles()`
and the other is `getOutputFile(f)` with a file name `f` that a template
literal converts to `list`: the string `list`, an array whose one item
converts to `list`, or another object whose conversion returns `list`. Those
issue the same request, and no other pair of methods collides. -/
theorem C10_collision_iff {R E : Type} (api : AxiosInstance R E) (c1 c2 : Invocation)
    (hne : c1.method ≠ c2.method) :
    ((∃ r1 r2, (c1.run api).issued = [r1] ∧ (c2.run api).issued = [r2] ∧
        r1.line = r2.line) ↔
      (c1 = Invocation.listOutputFiles ∧
        ∃ f, c2 = Invocation.getOutputFile f ∧ toStringOf f = Except.ok "list") ∨
      (c2 = Invocation.listOutputFiles ∧
        ∃ f, c1 = Invocation.getOutputFile f ∧ toStringOf f = Except.ok "list")) ∧
    (∀ f, toStringOf f = Except.ok "list" ↔
      f = JSVal.str "list" ∨ f = JSVal.other (Except.ok "list") ∨
        ∃ x, f = JSVal.arr [x] ∧ toStringOf x = Except.ok "list") ∧
    (getOutputFile api (Prim.str "list")).issued = (listOutputFiles api).issued ∧
    (getOutputFile api (JSVal.arr [JSVal.str "list"])).issued
      = (listOutputFiles api).issued ∧
    (getOutputFile api (JSVal.other (Except.ok "list"))).issued
      = (listOutputFiles api).issued := by
  have h : "/output/" ++ "list" = "/output/list" := by decide
  refine ⟨?_, toStringOf_eq_list_iff, ?_, ?_, ?_⟩
  · cases c1 <;> cases c2 <;>
      first
      | exact absurd rfl hne
      | (simp only [Invocation.run, healthCheck, getConfig, getGlossary, addGlossaryTerm,
           listBatches, createBatch, getBatch, startBatch, translateArticle, updateArticle,
           listOutputFiles, getOutputFile]
         (try split) <;> (try split) <;>
           simp_all [AxiosInstance.get, AxiosInstance.post, AxiosInstance.put,
             AxiosInstance.request, Request.line, throwBeforeRequest, String.ext_iff])
    exact eq_comm
  · simp [getOutputFile, listOutputFiles, toStringOf, toStr, h]
  · simp [getOutputFile, listOutputFiles, toStringOf, joinItems, itemString, JSVal.str, toStr, h]
  · simp [getOutputFile, listOutputFiles, toStringOf, h]

/-- Witness for C10: `listOutputFiles()` against `getOutputFile('list')`. -/
theorem C10_collision_iff_witness :
    (∃ r1 r2, (Invocation.listOutputFiles.run (api (ImportMetaEnv.mk Prim.undefined)
          (fun _ => (Outcome.fulfilled () : Outcome Unit Unit)))).issued = [r1] ∧
        ((Invocation.getOutputFile (JSVal.str "list")).run
          (api (ImportMetaEnv.mk Prim.undefined)
            (fun _ => (Outcome.fulfilled () : Outcome Unit Unit)))).issued = [r2] ∧
        r1.line = r2.line) ∧
    Invocation.listOutputFiles.method ≠ (Invocation.getOutputFile (JSVal.str "list")).method :=
  ⟨((C10_collision_iff (api (ImportMetaEnv.mk Prim.undefined)
      (fun _ => (Outcome.fulfilled () : Outcome Unit Unit)))
      Invocation.listOutputFiles (Invocation.getOutputFile (JSVal.str "list"))
      (by decide)).1).2 (Or.inl ⟨rfl, JSVal.str "list", rfl, rfl⟩), by decide⟩

/-! ## The router -/

theorem slash_free_pos (seg : List Char) (hseg : '/' ∉ seg) :
    ∀ a ∈ seg, (fun c => decide (c ≠ '/')) a = true := by
  intro a ha
  simp only [decide_eq_true_eq]
  rintro rfl
  exact hseg ha

/-- A token followed by more path: it is tested on the segment up to the next `/`. -/
theorem matchTokens_segment_slash (tok : Token) (toks : List Token) (seg rest : List Char)
    (hseg : '/' ∉ seg) :
    matchTokens (tok :: toks) ('/' :: (seg ++ '/' :: rest))
      = (tok.accepts seg && matchTokens toks ('/' :: rest)) := by
  have hp := slash_free_pos seg hseg
  simp only [matchTokens, List.takeWhile_append_of_pos hp, List.dropWhile_append_of_pos hp]
  simp

/-- A token on the last segment of the path. -/
theorem matchTokens_segment_end (tok : Token) (toks : List Token) (seg : List Char)
    (hseg : '/' ∉ seg) :
    matchTokens (tok :: toks) ('/' :: seg) = (tok.accepts seg && matchTokens toks []) := by
  have hp := slash_free_pos seg hseg
  have h := @List.takeWhile_append_of_pos _ _ seg [] hp
  have h2 := @List.dropWhile_append_of_pos _ _ seg [] hp
  simp only [List.append_nil] at h h2
  simp only [matchTokens, h, h2]
  simp

theorem tokenizePath_root : tokenizePath "/" = some [Token.static []] := by decide

/-- The root pattern matches `/` and `//` and nothing else among the short
paths: not the empty path, not `/batches`. -/
theorem root_pattern_matches :
    (RouteRecord.mk "/" (RouteAction.redirect "/batches")).matchesPath "/" = true ∧
    (RouteRecord.mk "/" (RouteAction.redirect "/batches")).matchesPath "//" = true ∧
    (RouteRecord.mk "/" (RouteAction.redirect "/batches")).matchesPath "" = false ∧
    (RouteRecord.mk "/" (RouteAction.redirect "/batches")).matchesPath "/batches" = false := by
  decide

theorem tokenizePath_batches :
    tokenizePath "/batches" = some [Token.static ['b', 'a', 't', 'c', 'h', 'e', 's']] := by
  decide

theorem tokenizePath_batch_detail :
    tokenizePath "/batches/:id"
      = some [Token.static ['b', 'a', 't', 'c', 'h', 'e', 's'], Token.param ['i', 'd']] := by
  decide

theorem tokenizePath_article_editor :
    tokenizePath "/articles/:id/edit"
      = some [Token.static ['a', 'r', 't', 'i', 'c', 'l', 'e', 's'], Token.param ['i', 'd'],
          Token.static ['e', 'd', 'i', 't']] := by
  decide

theorem tokenizePath_glossary :
    tokenizePath "/glossary"
      = some [Token.static ['g', 'l', 'o', 's', 's', 'a', 'r', 'y']] := by
  decide

theorem matchTokens_nil_iff (p : List Char) :
    matchTokens [] p = true ↔ p = [] ∨ p = ['/'] := by
  simp [matchTokens]

theorem matchTokens_cons_iff (tok : Token) (toks : List Token) (p : List Char) :
    matchTokens (tok :: toks) p = true ↔
      ∃ rest, p = '/' :: rest ∧ tok.accepts (rest.takeWhile (fun c => c ≠ '/')) = true ∧
        matchTokens toks (rest.dropWhile (fun c => c ≠ '/')) = true := by
  cases p with
  | nil => simp [matchTokens]
  | cons c rest =>
    by_cases hc : c = '/'
    · subst hc
      simp [matchTokens]
    · have : matchTokens (tok :: toks) (c :: rest) = false := by
        unfold matchTokens
        split
        · simp_all
        · simp_all
        · rfl
      simp [this, hc]

/-- A path matched by the empty token list and by a longer one has an empty
first segment. -/
theorem accepts_nil_of_match_nil (tok : Token) (toks : List Token) (p : List Char)
    (h0 : matchTokens [] p = true) (h1 : matchTokens (tok :: toks) p = true) :
    tok.accepts [] = true := by
  rw [matchTokens_nil_iff] at h0
  rw [matchTokens_cons_iff] at h1
  obtain ⟨rest, hp, ha, _⟩ := h1
  rcases h0 with h0 | h0
  · simp [h0] at hp
  · rw [h0] at hp
    simp at hp
    subst hp
    simpa using ha

/-- Two non-empty token lists matching one path test the same first segment
and the same remainder. -/
theorem match_common_segment (t1 t2 : Token) (ts1 ts2 : List Token) (p : List Char)
    (h1 : matchTokens (t1 :: ts1) p = true) (h2 : matchTokens (t2 :: ts2) p = true) :
    ∃ seg q, t1.accepts seg = true ∧ t2.accepts seg = true ∧
      matchTokens ts1 q = true ∧ matchTokens ts2 q = true := by
  rw [matchTokens_cons_iff] at h1 h2
  obtain ⟨rest, hp, ha, hm⟩ := h1
  obtain ⟨rest2, hp2, ha2, hm2⟩ := h2
  rw [hp] at hp2
  simp at hp2
  subst hp2
  exact ⟨_, _, ha, ha2, hm, hm2⟩

theorem static_accepts_same (a b seg : List Char)
    (ha : (Token.static a).accepts seg = true) (hb : (Token.static b).accepts seg = true) :
    foldCase a = foldCase b := by
  simp [Token.accepts] at ha hb
  rw [← ha, ← hb]

/-- At most one record of the table matches a path, so the record a path
resolves to does not depend on the order in which the records are tried. -/
theorem routes_match_unique (path : String) (r1 r2 : RouteRecord)
    (h1 : r1 ∈ routes) (h2 : r2 ∈ routes)
    (m1 : r1.matchesPath path = true) (m2 : r2.matchesPath path = true) : r1 = r2 := by
  simp only [routes, List.mem_cons, List.mem_singleton, List.not_mem_nil, or_false] at h1 h2
  rcases h1 with rfl | rfl | rfl | rfl | rfl <;> rcases h2 with rfl | rfl | rfl | rfl | rfl <;>
    first
    | rfl
    | (exfalso
       simp only [RouteRecord.matchesPath, tokenizePath_root, tokenizePath_batches,
         tokenizePath_batch_detail, tokenizePath_article_editor, tokenizePath_glossary]
         at m1 m2
       obtain ⟨seg, q, a1, a2, n1, n2⟩ := match_common_segment _ _ _ _ _ m1 m2
       first
       | exact absurd (static_accepts_same _ _ _ a1 a2) (by decide)
       | exact absurd (accepts_nil_of_match_nil _ _ _ n1 n2) (by decide)
       | exact absurd (accepts_nil_of_match_nil _ _ _ n2 n1) (by decide))

/-- The path `/batches/<id>` resolves to the record of `/batches/:id`. -/
theorem resolveRecord_batch_detail (id : String) (hne : id ≠ "") (hseg : '/' ∉ id.data) :
    resolveRecord routes ("/batches/" ++ id)
      = some (RouteRecord.mk "/batches/:id" (RouteAction.component View.BatchDetail)) := by
  have hid : id.data ≠ [] := fun h => hne (String.ext h)
  have hp : ("/batches/" ++ id).data
      = '/' :: (['b', 'a', 't', 'c', 'h', 'e', 's'] ++ '/' :: id.data) := by
    simp [String.data_append]
  have hb : '/' ∉ ['b', 'a', 't', 'c', 'h', 'e', 's'] := by decide
  have m0 : (RouteRecord.mk "/" (RouteAction.redirect "/batches")).matchesPath
      ("/batches/" ++ id) = false := by
    have a0 : (Token.static []).accepts ['b', 'a', 't', 'c', 'h', 'e', 's'] = false := by
      decide
    simp only [RouteRecord.matchesPath, tokenizePath_root, hp]
    rw [matchTokens_segment_slash _ _ _ _ hb, a0]
    rfl
  have m1 : (RouteRecord.mk "/batches" (RouteAction.component View.BatchList)).matchesPath
      ("/batches/" ++ id) = false := by
    simp only [RouteRecord.matchesPath, tokenizePath_batches, hp]
    rw [matchTokens_segment_slash _ _ _ _ hb]
    simp [matchTokens, hid]
  have m2 : (RouteRecord.mk "/batches/:id" (RouteAction.component View.BatchDetail)).matchesPath
      ("/batches/" ++ id) = true := by
    have a1 : (Token.static ['b', 'a', 't', 'c', 'h', 'e', 's']).accepts
        ['b', 'a', 't', 'c', 'h', 'e', 's'] = true := by decide
    simp only [RouteRecord.matchesPath, tokenizePath_batch_detail, hp]
    rw [matchTokens_segment_slash _ _ _ _ hb, matchTokens_segment_end _ _ _ hseg, a1]
    simp [matchTokens, Token.accepts, hid]
  simp [resolveRecord, routes, List.find?, m0, m1, m2]

/-- The path `/articles/<id>/edit` resolves to the record of `/articles/:id/edit`. -/
theorem resolveRecord_article_editor (id : String) (hne : id ≠ "") (hseg : '/' ∉ id.data) :
    resolveRecord routes ("/articles/" ++ id ++ "/edit")
      = some (RouteRecord.mk "/articles/:id/edit"
          (RouteAction.component View.ArticleEditor)) := by
  have hid : id.data ≠ [] := fun h => hne (String.ext h)
  have hp : ("/articles/" ++ id ++ "/edit").data
      = '/' :: (['a', 'r', 't', 'i', 'c', 'l', 'e', 's'] ++
          '/' :: (id.data ++ '/' :: ['e', 'd', 'i', 't'])) := by
    simp [String.data_append]
  have ha : '/' ∉ ['a', 'r', 't', 'i', 'c', 'l', 'e', 's'] := by decide
  have he : '/' ∉ ['e', 'd', 'i', 't'] := by decide
  have m0 : (RouteRecord.mk "/" (RouteAction.redirect "/batches")).matchesPath
      ("/articles/" ++ id ++ "/edit") = false := by
    have a0 : (Token.static []).accepts ['a', 'r', 't', 'i', 'c', 'l', 'e', 's'] = false := by
      decide
    simp only [RouteRecord.matchesPath, tokenizePath_root, hp]
    rw [matchTokens_segment_slash _ _ _ _ ha, a0]
    rfl
  have m1 : (RouteRecord.mk "/batches" (RouteAction.component View.BatchList)).matchesPath
      ("/articles/" ++ id ++ "/edit") = false := by
    have a1 : (Token.static ['b', 'a', 't', 'c', 'h', 'e', 's']).accepts
        ['a', 'r', 't', 'i', 'c', 'l', 'e', 's'] = false := by decide
    simp only [RouteRecord.matchesPath, tokenizePath_batches, hp]
    rw [matchTokens_segment_slash _ _ _ _ ha, a1]
    rfl
  have m2 : (RouteRecord.mk "/batches/:id" (RouteAction.component View.BatchDetail)).matchesPath
      ("/articles/" ++ id ++ "/edit") = false := by
    have a1 : (Token.static ['b', 'a', 't', 'c', 'h', 'e', 's']).accepts
        ['a', 'r', 't', 'i', 'c', 'l', 'e', 's'] = false := by decide
    simp only [RouteRecord.matchesPath, tokenizePath_batch_detail, hp]
    rw [matchTokens_segment_slash _ _ _ _ ha, a1]
    rfl
  have m3 : (RouteRecord.mk "/articles/:id/edit"
      (RouteAction.component View.ArticleEditor)).matchesPath
      ("/articles/" ++ id ++ "/edit") = true := by
    have a1 : (Token.static ['a', 'r', 't', 'i', 'c', 'l', 'e', 's']).accepts
        ['a', 'r', 't', 'i', 'c', 'l', 'e', 's'] = true := by decide
    have a2 : (Token.static ['e', 'd', 'i', 't']).accepts ['e', 'd', 'i', 't'] = true := by
      decide
    simp only [RouteRecord.matchesPath, tokenizePath_article_editor, hp]
    rw [matchTokens_segment_slash _ _ _ _ ha, matchTokens_segment_slash _ _ _ _ hseg,
      matchTokens_segment_end _ _ _ he, a1, a2]
    simp [matchTokens, Token.accepts, hid]
  simp [resolveRecord, routes, List.find?, m0, m1, m2, m3]

/-- C5: each path of the route table resolves to its view. `/batches` gives
BatchList, `/batches/<id>` BatchDetail and `/articles/<id>/edit` ArticleEditor
for every non-empty `id` without `/`, `/glossary` GlossaryManager; `/` matches
the redirect record and the navigation ends at BatchList after exactly one
redirect, given fuel for two resolutions; every redirect target of the table
resolves to a component record. -/
theorem C5_paths_resolve_to_views (id : String) (hne : id ≠ "") (hseg : '/' ∉ id.data)
    (fuel : Nat) :
    navigate routes (fuel + 1) "/batches" 0 = Navigation.rendered View.BatchList 0 ∧
    navigate routes (fuel + 1) ("/batches/" ++ id) 0
      = Navigation.rendered View.BatchDetail 0 ∧
    navigate routes (fuel + 1) ("/articles/" ++ id ++ "/edit") 0
      = Navigation.rendered View.ArticleEditor 0 ∧
    navigate routes (fuel + 1) "/glossary" 0 = Navigation.rendered View.GlossaryManager 0 ∧
    resolveRecord routes "/" = some (RouteRecord.mk "/" (RouteAction.redirect "/batches")) ∧
    navigate routes (fuel + 2) "/" 0 = Navigation.rendered View.BatchList 1 ∧
    (∀ r ∈ routes, ∀ target, r.action = RouteAction.redirect target →
      ∃ v, (resolveRecord routes target).map RouteRecord.action
        = some (RouteAction.component v)) := by
  have r0 : resolveRecord routes "/"
      = some (RouteRecord.mk "/" (RouteAction.redirect "/batches")) := by decide
  have r1 : resolveRecord routes "/batches"
      = some (RouteRecord.mk "/batches" (RouteAction.component View.BatchList)) := by decide
  have r4 : resolveRecord routes "/glossary"
      = some (RouteRecord.mk "/glossary" (RouteAction.component View.GlossaryManager)) := by
    decide
  refine ⟨?_, ?_, ?_, ?_, r0, ?_, ?_⟩
  · simp [navigate, r1]
  · simp [navigate, resolveRecord_batch_detail id hne hseg]
  · simp [navigate, resolveRecord_article_editor id hne hseg]
  · simp [navigate, r4]
  · simp [navigate, r0, r1]
  · intro r hr target ht
    simp only [routes, List.mem_cons, List.mem_singleton, List.not_mem_nil, or_false] at hr
    rcases hr with rfl | rfl | rfl | rfl | rfl <;> simp at ht
    subst ht
    exact ⟨View.BatchList, by rw [r1]; rfl⟩

/-- Witness for C5: the identifier `42`. -/
theorem C5_paths_resolve_to_views_witness :
    navigate routes (0 + 1) "/batches" 0 = Navigation.rendered View.BatchList 0 ∧
    navigate routes (0 + 1) ("/batches/" ++ "42") 0
      = Navigation.rendered View.BatchDetail 0 ∧
    navigate routes (0 + 1) ("/articles/" ++ "42" ++ "/edit") 0
      = Navigation.rendered View.ArticleEditor 0 ∧
    navigate routes (0 + 1) "/glossary" 0 = Navigation.rendered View.GlossaryManager 0 ∧
    resolveRecord routes "/" = some (RouteRecord.mk "/" (RouteAction.redirect "/batches")) ∧
    navigate routes (0 + 2) "/" 0 = Navigation.rendered View.BatchList 1 ∧
    (∀ r ∈ routes, ∀ target, r.action = RouteAction.redirect target →
      ∃ v, (resolveRecord routes target).map RouteRecord.action
        = some (RouteAction.component v)) :=
  C5_paths_resolve_to_views "42" (by decide) (by decide) 0

/-- C8, as stated, fails: two records of the route table have an `:id`
parameter, not three. -/
theorem C8_three_parameterized_counterexample :
    ¬ (routes.length = 5 ∧ (routes.filter RouteRecord.isRedirect).length = 1 ∧
      (routes.filter (fun r => r.hasParam "id")).length = 3) := by
  decide

/-- C8, amended: the route table consists of five path patterns, of which
exactly one is a redirect (from `/` to `/batches`) and exactly two are
parameterized routes containing an `:id` parameter (`/batches/:id` and
`/articles/:id/edit`). -/
theorem C8_route_table_shape :
    routes.length = 5 ∧
    routes.filter RouteRecord.isRedirect
      = [RouteRecord.mk "/" (RouteAction.redirect "/batches")] ∧
    routes.filter (fun r => r.hasParam "id")
      = [RouteRecord.mk "/batches/:id" (RouteAction.component View.BatchDetail),
         RouteRecord.mk "/articles/:id/edit" (RouteAction.component View.ArticleEditor)] ∧
    routes.map RouteRecord.path
      = ["/", "/batches", "/batches/:id", "/articles/:id/edit", "/glossary"] := by
  decide

end Zdkb
